import Mathlib

/-!
Verification of the SE Insight backend (src/backend/main.py, src/backend/config.py).

The development shallowly embeds the parts of the backend that the checked
properties are about: the per-connection audio buffer and its windowing
(`AudioProcessor.add_audio_data` / `AudioProcessor.get_audio_chunk`), the
prioritized transcription-engine chain with its statistics
(`ASRProcessor.transcribe_audio`, `ASRProcessor._update_avg_processing_time`,
`ASRProcessor._mock_transcription`), the terminology extraction
(`extract_se_terms`), the RAG enrichment (`AdvancedRAGEngine`), the control
message handler (`handle_control_message`) and the connection registry
(`ConnectionManager`).

Conventions of the embedding:
- Python floats are modelled as exact rationals (ℚ); wall-clock readings
  (`time.time()` differences) become explicit parameters.
- Python dicts that are used as string-keyed tables become association lists
  (`List (String × β)`); insertion order of literals is kept, matching the
  iteration order of Python dicts.
- Fallible calls return `Option`; an exception caught and logged inside a
  function that then returns `None` is modelled as `none`.
- Raw int16 PCM byte decoding (`np.frombuffer(audio_data, dtype=np.int16)`) is
  abstracted: audio data arrives as the decoded sample list (`List ℤ`).
-/

/-- Model of Python `str.lower` (all strings handled by the backend are ASCII,
where `Char.toLower` agrees with Python character for character). -/
def str_lower (s : String) : String := String.mk (s.data.map Char.toLower)

/-- Model of the Python substring operator `pat in s`. -/
def contains_sub (pat s : String) : Bool := decide (pat.data <:+: s.data)

/-- `AudioConfig` from src/backend/config.py with its default field values.
`buffer_duration` is the float `2.0`, kept as an exact rational. -/
structure AudioConfig where
  sample_rate : ℕ := 16000
  channels : ℕ := 1
  bit_depth : ℕ := 16
  chunk_size : ℕ := 4096
  buffer_duration : ℚ := 2
  max_buffer_size : ℕ := 160000
deriving DecidableEq

/-- The default configuration `AudioConfig()`. -/
def default_audio_config : AudioConfig := {}

/-- The window size `int(self.config.sample_rate * self.config.buffer_duration)`
computed in both `add_audio_data` and `get_audio_chunk` (Python `int()`
truncates; both factors are nonnegative, so this is the floor). -/
def required_samples (c : AudioConfig) : ℕ :=
  ((c.sample_rate : ℚ) * c.buffer_duration).floor.toNat

/-- `AudioProcessor.add_audio_data`: append the decoded samples to the buffer
and report whether a full window worth of samples has accumulated.
Returns the new buffer together with the `ready` flag. -/
def add_audio_data (c : AudioConfig) (audio_buffer : List ℤ) (audio_array : List ℤ) :
    List ℤ × Bool :=
  let audio_buffer := audio_buffer ++ audio_array
  (audio_buffer, decide (required_samples c ≤ audio_buffer.length))

/-- `AudioProcessor.get_audio_chunk`: `none` when the buffer is empty, otherwise
the first `chunk_samples` samples as the chunk, with the buffer left holding
`audio_buffer[chunk_samples - overlap_samples:]` where
`overlap_samples = chunk_samples // 4`. Returns `(chunk, new buffer)`. -/
def get_audio_chunk (c : AudioConfig) (audio_buffer : List ℤ) :
    Option (List ℤ × List ℤ) :=
  if audio_buffer.length = 0 then none
  else
    let chunk_samples := required_samples c
    let chunk := audio_buffer.take chunk_samples
    let overlap_samples := chunk_samples / 4
    some (chunk, audio_buffer.drop (chunk_samples - overlap_samples))

/-- The module-level `SE_TERMS` dictionary of src/backend/main.py, in its
literal order. -/
def SE_TERMS : List (String × String) := [
  ("software architecture", "The fundamental structures of a software system and the discipline of creating such structures and systems."),
  ("design pattern", "A general, reusable solution to a commonly occurring problem within a given context in software design."),
  ("microservices", "An architectural style that structures an application as a collection of loosely coupled services."),
  ("api", "Application Programming Interface - a set of protocols and tools for building software applications."),
  ("rest", "Representational State Transfer - an architectural style for designing networked applications."),
  ("database", "An organized collection of structured information, or data, typically stored electronically."),
  ("algorithm", "A process or set of rules to be followed in calculations or other problem-solving operations."),
  ("data structure", "A data organization, management, and storage format that enables efficient access and modification."),
  ("object oriented", "A programming paradigm based on the concept of objects, which contain data and code."),
  ("functional programming", "A programming paradigm that treats computation as the evaluation of mathematical functions.")]

/-- `extract_se_terms` generalized over the dictionary contents: `SE_TERMS` is a
module-level mutable dict (terms can be added or deleted through the HTTP
surface), so the dictionary is an explicit parameter here. The body is the
loop `for term in SE_TERMS.keys(): if term in text_lower: found_terms.append(term)`. -/
def extract_se_terms_in (dict : List (String × String)) (text : String) : List String :=
  let text_lower := str_lower text
  (dict.map Prod.fst).filter (fun term => contains_sub term text_lower)

/-- `extract_se_terms` over the default `SE_TERMS` table. -/
def extract_se_terms (text : String) : List String :=
  extract_se_terms_in SE_TERMS text

/-- `ASRProcessor._simple_keyword_extraction`: same scan as `extract_se_terms`,
over the module-level `SE_TERMS`. -/
def simple_keyword_extraction (text : String) : List String :=
  let text_lower := str_lower text
  (SE_TERMS.map Prod.fst).filter (fun term => contains_sub term text_lower)

/-- The `TranscriptionResult` dataclass. `explanations` is a string-keyed dict,
modelled as an association list. -/
structure TranscriptionResult where
  text : String
  confidence : ℚ
  keywords : List String
  explanations : List (String × String)
  timestamp : ℚ
  processing_time : ℚ
deriving DecidableEq

/-- `ASRProcessor._generate_explanations`: for each keyword whose lowercase form
is a key of `SE_TERMS`, map the keyword to its definition. -/
def asr_generate_explanations (keywords : List String) : List (String × String) :=
  keywords.filterMap (fun keyword =>
    (SE_TERMS.lookup (str_lower keyword)).map (fun d => (keyword, d)))

/-- The canned texts of `ASRProcessor._mock_transcription`. -/
def mock_responses : List String := [
  "Software architecture defines the fundamental structures of a system.",
  "We need to implement a REST API for our microservices architecture.",
  "The database design pattern should follow normalization principles.",
  "Object oriented programming uses classes and inheritance mechanisms.",
  "Functional programming emphasizes immutable data structures and pure functions.",
  "Algorithm complexity analysis helps optimize system performance.",
  "Design patterns provide reusable solutions to common programming problems."]

/-- `ASRProcessor._mock_transcription`. `t` stands for `int(time.time())`; the
text is `mock_responses[t % len(mock_responses)]`. Keyword extraction follows
the deterministic branch of `_extract_keywords` (the `keybert_model is None`
fallback to `_simple_keyword_extraction`). The function always returns a
result, with fixed confidence 0.7; `processing_time` is set by the caller. -/
def mock_transcription (t : ℕ) : Option TranscriptionResult :=
  let text := mock_responses.getD (t % mock_responses.length) ""
  let keywords := simple_keyword_extraction text
  let explanations := asr_generate_explanations keywords
  some { text := text, confidence := 7/10, keywords := keywords,
         explanations := explanations, timestamp := (t : ℚ), processing_time := 0 }

/-- The `ASRProcessor.processing_stats` dict. `avg_processing_time` is a float,
kept exact as ℚ; `current_connections`-style counters stay ℕ since they only
grow here. -/
structure ASRStats where
  total_requests : ℕ
  successful_transcriptions : ℕ
  failed_transcriptions : ℕ
  avg_processing_time : ℚ
deriving DecidableEq

/-- `ASRProcessor.__init__`: all statistics start at zero. -/
def initial_processing_stats : ASRStats :=
  { total_requests := 0, successful_transcriptions := 0,
    failed_transcriptions := 0, avg_processing_time := 0 }

/-- `ASRProcessor._update_avg_processing_time`: incremental mean over the
current (already incremented) success count. The subtraction
`total_successful - 1` is Python int arithmetic embedded in ℚ, which agrees
for every value of the counter. -/
def update_avg_processing_time (stats : ASRStats) (processing_time : ℚ) : ASRStats :=
  let total_successful := stats.successful_transcriptions
  let current_avg := stats.avg_processing_time
  let new_avg := ((current_avg * ((total_successful : ℚ) - 1)) + processing_time) /
    (total_successful : ℚ)
  { stats with avg_processing_time := new_avg }

/-- The engine state seen by `ASRProcessor.transcribe_audio`: for each of the
two real engines, the outer `Option` is the availability of the global
(`whisper_model` / `asr_engine` being non-`None`), and the inner `Option` the
outcome of invoking that engine on the current window (`none` for an engine
that raised or recognized nothing, which `_transcribe_with_whisper` and
`_transcribe_with_sr` both surface as a `None` return). -/
structure ASREngines where
  whisper_model : Option (Option TranscriptionResult)
  asr_engine : Option (Option TranscriptionResult)

/-- Tags naming the three engines of the chain, used to record which engines a
run of `transcribe_audio` invoked, in order. -/
inductive EngineTag
  | whisper
  | speech_recognition
  | mock
deriving DecidableEq

/-- The tail of `transcribe_audio` from the mock fallback on: the mock result,
with `processing_time` set to the elapsed wall-clock time, and no statistics
update (the code updates success statistics only on the two real engines). -/
def transcribe_mock_step (stats : ASRStats) (elapsed : ℚ) (t : ℕ)
    (tried : List EngineTag) :
    Option TranscriptionResult × ASRStats × List EngineTag :=
  match mock_transcription t with
  | some r => (some { r with processing_time := elapsed }, stats, tried ++ [EngineTag.mock])
  | none => (none, stats, tried ++ [EngineTag.mock])

/-- The tail of `transcribe_audio` from the `speech_recognition` fallback on:
invoke the secondary engine when its global is set, book a success, or fall
through to the mock step. -/
def transcribe_after_whisper (stats : ASRStats) (elapsed : ℚ) (t : ℕ)
    (asr_engine : Option (Option TranscriptionResult)) (tried : List EngineTag) :
    Option TranscriptionResult × ASRStats × List EngineTag :=
  match asr_engine with
  | some (some r) =>
    let stats := { stats with
      successful_transcriptions := stats.successful_transcriptions + 1 }
    (some { r with processing_time := elapsed },
      update_avg_processing_time stats elapsed,
      tried ++ [EngineTag.speech_recognition])
  | some none => transcribe_mock_step stats elapsed t (tried ++ [EngineTag.speech_recognition])
  | none => transcribe_mock_step stats elapsed t tried

/-- `ASRProcessor.transcribe_audio`: bump `total_requests`, then try Whisper,
then `speech_recognition`, then the mock, stopping at the first engine that
yields a result; on a real-engine success, bump `successful_transcriptions`,
stamp the elapsed wall-clock time into the result and update the running
average. `elapsed` stands for `time.time() - start_time` at the return point;
`t` for `int(time.time())` inside the mock. The third component records which
engines were invoked, in order. -/
def transcribe_audio (eng : ASREngines) (stats : ASRStats) (elapsed : ℚ) (t : ℕ) :
    Option TranscriptionResult × ASRStats × List EngineTag :=
  let stats := { stats with total_requests := stats.total_requests + 1 }
  match eng.whisper_model with
  | some (some r) =>
    let stats := { stats with
      successful_transcriptions := stats.successful_transcriptions + 1 }
    (some { r with processing_time := elapsed },
      update_avg_processing_time stats elapsed,
      [EngineTag.whisper])
  | some none => transcribe_after_whisper stats elapsed t eng.asr_engine [EngineTag.whisper]
  | none => transcribe_after_whisper stats elapsed t eng.asr_engine []

/-- A run of `N` transcriptions through `transcribe_audio` in which Whisper
succeeds each time with result `r`, the i-th call measuring the i-th entry of
`times` as its elapsed wall-clock duration; returns the final statistics. -/
def run_whisper_successes (r : TranscriptionResult) (t : ℕ) (stats : ASRStats)
    (times : List ℚ) : ASRStats :=
  times.foldl (fun s pt => (transcribe_audio ⟨some (some r), none⟩ s pt t).2.1) stats

/-- The per-client `connection_info` record created by `ConnectionManager.connect`
and mutated by the message handlers. `audio_format` is the JSON object sent by
the client (an association list here), `None` until a connection message sets it. -/
structure ConnectionInfo where
  tab_id : Option String
  connected_at : ℚ
  audio_packets_received : ℕ
  transcriptions_sent : ℕ
  last_activity : ℚ
  audio_format : Option (List (String × String))
deriving DecidableEq

/-- The control-message vocabulary of `handle_control_message`, keyed by the
`type` field of the parsed JSON. `unknown` covers every unrecognized type
(logged and ignored). -/
inductive ControlMessage
  | connection (tabId : Option String) (audioFormat : List (String × String))
  | disconnect
  | ping
  | get_stats
  | unknown (msg_type : String)
deriving DecidableEq

/-- Effect of `handle_control_message` on the per-client `connection_info`
record, together with the `should_continue` flag it returns (`False` only for
an explicit disconnect request). Only the connection-info update branch writes
to the record (`tab_id` and `audio_format`); no branch touches `last_activity`. -/
def handle_control_message (message : ControlMessage) (info : ConnectionInfo) :
    ConnectionInfo × Bool :=
  match message with
  | ControlMessage.connection tabId audioFormat =>
    ({ info with tab_id := tabId, audio_format := some audioFormat }, true)
  | ControlMessage.disconnect => (info, false)
  | ControlMessage.ping => (info, true)
  | ControlMessage.get_stats => (info, true)
  | ControlMessage.unknown _ => (info, true)

/-- `ConnectionManager.update_audio_packet_count` restricted to the per-client
record: bump the packet counter and refresh `last_activity` to the current
wall-clock time. -/
def update_audio_packet_count (now : ℚ) (info : ConnectionInfo) : ConnectionInfo :=
  { info with audio_packets_received := info.audio_packets_received + 1,
              last_activity := now }

/-- One inbound WebSocket message as dispatched by the receive loop of
`websocket_endpoint`: either a textual control message or a binary audio frame.
For an audio frame, `sent` records whether the pipeline produced and sent a
transcription for it (in which case `send_personal_message` also bumps
`transcriptions_sent`). -/
inductive InboundMessage
  | text (message : ControlMessage)
  | bytes (sent : Bool)
deriving DecidableEq

/-- Effect of one iteration of the `websocket_endpoint` receive loop on the
per-client `connection_info` record at wall-clock time `now`: control messages
go through `handle_control_message`; audio frames go through
`handle_audio_data`, which first calls `update_audio_packet_count` and then, if
a transcription was sent for this frame, bumps `transcriptions_sent`. -/
def inbound_info_update (now : ℚ) (m : InboundMessage) (info : ConnectionInfo) :
    ConnectionInfo :=
  match m with
  | InboundMessage.text message => (handle_control_message message info).1
  | InboundMessage.bytes sent =>
    let info := update_audio_packet_count now info
    if sent then { info with transcriptions_sent := info.transcriptions_sent + 1 }
    else info

/-- The `connection_stats` dict of `ConnectionManager`. `current_connections`
is a Python int that is decremented without a membership guard, so it lives in
ℤ; the other counters only grow. -/
structure ConnectionStats where
  total_connections : ℕ
  current_connections : ℤ
  total_audio_packets : ℕ
  total_transcriptions : ℕ
deriving DecidableEq

/-- The `ConnectionManager` registry state: the key set of
`active_connections` (the WebSocket values are irrelevant to the properties
checked), the `connection_info` and `audio_processors` tables, and the
aggregate counters. -/
structure ConnectionManagerState where
  active_connections : List String
  connection_info : List (String × ConnectionInfo)
  audio_processors : List (String × List ℤ)
  connection_stats : ConnectionStats
deriving DecidableEq

/-- `ConnectionManager.__init__`: empty tables, zero counters. -/
def initial_manager : ConnectionManagerState :=
  { active_connections := [], connection_info := [], audio_processors := [],
    connection_stats := { total_connections := 0, current_connections := 0,
                          total_audio_packets := 0, total_transcriptions := 0 } }

/-- Python dict assignment `d[k] = v` on an association list: overwrite the
entry when the key is present, append it otherwise. -/
def dict_set {β : Type} (l : List (String × β)) (k : String) (v : β) :
    List (String × β) :=
  if l.any (fun p => p.1 == k) then l.map (fun p => if p.1 == k then (k, v) else p)
  else l ++ [(k, v)]

/-- `ConnectionManager.connect`: register the client in all three tables with a
fresh `AudioProcessor` (empty buffer) and a fresh info record stamped `now`,
and bump both connection counters. -/
def cm_connect (m : ConnectionManagerState) (client_id : String)
    (tab_id : Option String) (now : ℚ) : ConnectionManagerState :=
  { m with
    active_connections :=
      if client_id ∈ m.active_connections then m.active_connections
      else m.active_connections ++ [client_id],
    audio_processors := dict_set m.audio_processors client_id [],
    connection_info := dict_set m.connection_info client_id
      { tab_id := tab_id, connected_at := now, audio_packets_received := 0,
        transcriptions_sent := 0, last_activity := now, audio_format := none },
    connection_stats := { m.connection_stats with
      total_connections := m.connection_stats.total_connections + 1,
      current_connections := m.connection_stats.current_connections + 1 } }

/-- `ConnectionManager.disconnect`: delete the client from each table it is
still in, then decrement `current_connections` — the decrement is outside
every membership guard and runs even when the client was not registered. -/
def cm_disconnect (m : ConnectionManagerState) (client_id : String) :
    ConnectionManagerState :=
  { m with
    active_connections := m.active_connections.filter (fun c => c != client_id),
    audio_processors := m.audio_processors.filter (fun p => p.1 != client_id),
    connection_info := m.connection_info.filter (fun p => p.1 != client_id),
    connection_stats := { m.connection_stats with
      current_connections := m.connection_stats.current_connections - 1 } }

/-- `ConnectionManager.cleanup_inactive_connections`: collect the clients whose
`last_activity` is more than 300 seconds old, then disconnect each. -/
def cm_cleanup_inactive_connections (m : ConnectionManagerState) (now : ℚ) :
    ConnectionManagerState :=
  let inactive_clients :=
    (m.connection_info.filter (fun p => decide (300 < now - p.2.last_activity))).map Prod.fst
  inactive_clients.foldl cm_disconnect m

/-- The `architecture_terms` list of `AdvancedRAGEngine.build_term_relationships`. -/
def architecture_terms : List String :=
  ["software architecture", "microservices", "design pattern", "api", "rest"]

/-- The `programming_terms` list of `AdvancedRAGEngine.build_term_relationships`. -/
def programming_terms : List String :=
  ["object oriented", "functional programming", "algorithm", "data structure"]

/-- The `data_terms` list of `AdvancedRAGEngine.build_term_relationships`. -/
def data_terms : List String :=
  ["database", "data structure", "algorithm"]

/-- `AdvancedRAGEngine._categorize_term`: first matching entry of the
`categories` dict in its literal order, else "general". -/
def categorize_term (term : String) : String :=
  if term ∈ ["software architecture", "microservices", "design pattern", "api", "rest"] then
    "architecture"
  else if term ∈ ["object oriented", "functional programming", "algorithm"] then
    "programming"
  else if term ∈ ["database", "data structure"] then "data"
  else if term ∈ ["api", "rest"] then "web"
  else "general"

/-- `AdvancedRAGEngine._assess_complexity`. -/
def assess_complexity (term : String) : String :=
  if term ∈ ["api", "database", "algorithm"] then "beginner"
  else if term ∈ ["object oriented", "design pattern", "rest"] then "intermediate"
  else if term ∈ ["software architecture", "microservices", "functional programming"] then
    "advanced"
  else "intermediate"

/-- The `prerequisites` dict of `AdvancedRAGEngine._get_prerequisites`. -/
def prerequisites_table : List (String × List String) := [
  ("microservices", ["software architecture", "api"]),
  ("design pattern", ["object oriented"]),
  ("functional programming", ["algorithm"]),
  ("rest", ["api"]),
  ("data structure", ["algorithm"])]

/-- `AdvancedRAGEngine._get_prerequisites`: table lookup with default `[]`. -/
def get_prerequisites (term : String) : List String :=
  (prerequisites_table.lookup term).getD []

/-- The per-term record stored in `AdvancedRAGEngine.term_relationships`. -/
structure TermRel where
  related : List String
  category : String
  complexity : String
  prerequisites : List String
deriving DecidableEq

/-- `AdvancedRAGEngine.build_term_relationships`: one record per dictionary
key, with the `related` list filled from the first of the three static term
groups containing the key. -/
def build_term_relationships (terms_db : List (String × String)) :
    List (String × TermRel) :=
  terms_db.map (fun p =>
    let term := p.1
    let base : TermRel :=
      { related := [], category := categorize_term term,
        complexity := assess_complexity term, prerequisites := get_prerequisites term }
    let rel :=
      if term ∈ architecture_terms then
        { base with related := architecture_terms.filter (fun t => t != term) }
      else if term ∈ programming_terms then
        { base with related := programming_terms.filter (fun t => t != term) }
      else if term ∈ data_terms then
        { base with related := data_terms.filter (fun t => t != term) }
      else base
    (term, rel))

/-- The relationship table built at startup
(`rag_engine.term_relationships = rag_engine.build_term_relationships(SE_TERMS)`). -/
def term_relationships : List (String × TermRel) :=
  build_term_relationships SE_TERMS

/-- The "learning_path" sub-object of an enhanced explanation. -/
structure LearningPath where
  prerequisites : List String
  related_concepts : List String
  next_steps : List String
deriving DecidableEq

/-- The enhanced-explanation dict built by
`AdvancedRAGEngine.generate_enhanced_explanation` for a known term. -/
structure EnhancedExplanation where
  term : String
  definition : String
  category : String
  complexity : String
  context_aware : Bool
  learning_path : LearningPath
  practical_example : String
  common_misconceptions : List String
  real_world_usage : String
deriving DecidableEq

/-- The two result shapes of `generate_enhanced_explanation`: the degraded
`{"explanation": ..., "enhanced": False}` dict for an unknown term, or the full
enhanced dict. -/
inductive ExplanationResult
  | basic (explanation : String) (enhanced : Bool)
  | enhanced (e : EnhancedExplanation)
deriving DecidableEq

/-- The `next_steps` dict of `AdvancedRAGEngine._get_next_steps`. The
`user_level` argument is accepted and unused, exactly as in the source. -/
def get_next_steps (term : String) (user_level : String) : List String :=
  ([("api", ["rest", "microservices"]),
    ("object oriented", ["design pattern", "software architecture"]),
    ("algorithm", ["data structure", "functional programming"]),
    ("database", ["data structure", "software architecture"]),
    ("design pattern", ["software architecture", "microservices"])].lookup term).getD []

/-- `AdvancedRAGEngine._get_practical_example`: table lookup with a
term-interpolated default; the `context` argument is accepted and unused. -/
def get_practical_example (term : String) (context : String) : String :=
  (([("api", "Like a restaurant menu - it shows what's available and how to order, but you don't see the kitchen."),
     ("microservices", "Like a food delivery app: separate services for user accounts, restaurants, payments, and delivery tracking."),
     ("object oriented", "Like a car blueprint: Car class with properties (color, model) and methods (start, stop, accelerate)."),
     ("database", "Like a digital filing cabinet with organized folders, labels, and quick search capabilities."),
     ("algorithm", "Like a recipe: step-by-step instructions to solve a problem or complete a task."),
     ("design pattern", "Like architectural blueprints: proven solutions for common building challenges."),
     ("rest", "Like a standardized postal system: consistent rules for addressing, sending, and receiving messages."),
     ("functional programming", "Like mathematical functions: given the same input, always produces the same output."),
     ("software architecture", "Like city planning: organizing components, infrastructure, and connections for scalability."),
     ("data structure", "Like organizing a library: different ways to arrange books for efficient finding and access.")].lookup term).getD
    ("A fundamental concept in software engineering related to " ++ term ++ "."))

/-- `AdvancedRAGEngine._get_misconceptions`: table lookup with default `[]`. -/
def get_misconceptions (term : String) : List String :=
  (([("api", ["APIs are only for web development", "APIs are the same as databases"]),
     ("microservices", ["Microservices are always better than monoliths", "More services = better architecture"]),
     ("object oriented", ["OOP is the only good programming paradigm", "More classes = better design"]),
     ("database", ["All databases are the same", "Bigger databases are always slower"]),
     ("algorithm", ["Algorithms are only for competitive programming", "Complex algorithms are always better"])].lookup term).getD [])

/-- `AdvancedRAGEngine._get_usage_context`: table lookup with a fixed default. -/
def get_usage_context (term : String) : String :=
  (([("api", "Used in web development, mobile apps, cloud services, and system integration."),
     ("microservices", "Popular in large-scale applications like Netflix, Amazon, and Uber."),
     ("object oriented", "Foundation of languages like Java, C#, Python, and modern software design."),
     ("database", "Essential for any application storing data: websites, mobile apps, enterprise systems."),
     ("algorithm", "Core of search engines, recommendation systems, and optimization problems.")].lookup term).getD
    "Widely used in modern software development and engineering practices.")

/-- `AdvancedRAGEngine.generate_enhanced_explanation`, parametrized by the
relationship table held in `self.term_relationships`. For a term missing from
`SE_TERMS` (lowercased lookup) the degraded dict is returned; otherwise the
enhanced dict is assembled from the relationship record for the term (with the
empty-dict defaults of the `.get` calls when the term has no record), the three
static per-term tables and the next-steps table. -/
def generate_enhanced_explanation (rels : List (String × TermRel)) (term : String)
    (context : String) (user_level : String) : ExplanationResult :=
  match SE_TERMS.lookup (str_lower term) with
  | none =>
    ExplanationResult.basic
      ("No definition available for '" ++ term ++ "'") false
  | some base_explanation =>
    let relationships := (rels.lookup term).getD
      { related := [], category := "general", complexity := "intermediate",
        prerequisites := [] }
    ExplanationResult.enhanced
      { term := term, definition := base_explanation,
        category := relationships.category,
        complexity := relationships.complexity,
        context_aware := true,
        learning_path :=
          { prerequisites := relationships.prerequisites.take 3,
            related_concepts := relationships.related.take 3,
            next_steps := get_next_steps term user_level },
        practical_example := get_practical_example term context,
        common_misconceptions := get_misconceptions term,
        real_world_usage := get_usage_context term }

theorem required_samples_default : required_samples default_audio_config = 32000 := by
  unfold required_samples default_audio_config
  norm_num [Rat.floor]
  all_goals decide

/-- A small configuration (window of 4 samples) used to exercise the windowing
lemmas on concrete buffers. -/
def test_audio_config : AudioConfig := { sample_rate := 4, buffer_duration := 1 }

theorem required_samples_test : required_samples test_audio_config = 4 := by
  unfold required_samples test_audio_config
  norm_num [Rat.floor]
  all_goals decide

/-- C1: the mock fallback engine always succeeds, producing a result with the
fixed confidence 0.7, and consequently `transcribe_audio` never returns `none`
for a window, whatever the availability and outcomes of the real engines. -/
theorem mock_engine_always_succeeds (eng : ASREngines) (stats : ASRStats)
    (elapsed : ℚ) (t : ℕ) :
    (∃ m, mock_transcription t = some m ∧ m.confidence = 7/10) ∧
    (transcribe_audio eng stats elapsed t).1.isSome = true := by
  refine ⟨⟨_, rfl, rfl⟩, ?_⟩
  obtain ⟨w, a⟩ := eng
  rcases w with _ | (_ | r1) <;> rcases a with _ | (_ | r2) <;> rfl

theorem whisper_success_step (r : TranscriptionResult) (t : ℕ) (s : ASRStats)
    (pt : ℚ) :
    (transcribe_audio ⟨some (some r), none⟩ s pt t).2.1 =
      { total_requests := s.total_requests + 1,
        successful_transcriptions := s.successful_transcriptions + 1,
        failed_transcriptions := s.failed_transcriptions,
        avg_processing_time :=
          ((s.avg_processing_time * (((s.successful_transcriptions + 1 : ℕ) : ℚ) - 1)) + pt) /
            ((s.successful_transcriptions + 1 : ℕ) : ℚ) } := rfl

theorem run_whisper_invariant (r : TranscriptionResult) (t : ℕ) (times : List ℚ) :
    ∀ s : ASRStats,
      (run_whisper_successes r t s times).successful_transcriptions =
        s.successful_transcriptions + times.length ∧
      (run_whisper_successes r t s times).avg_processing_time *
          ((s.successful_transcriptions + times.length : ℕ) : ℚ) =
        s.avg_processing_time * (s.successful_transcriptions : ℚ) + times.sum := by
  induction times with
  | nil =>
    intro s
    simp [run_whisper_successes]
  | cons pt rest ih =>
    intro s
    have hrun : run_whisper_successes r t s (pt :: rest) =
        run_whisper_successes r t
          ((transcribe_audio ⟨some (some r), none⟩ s pt t).2.1) rest := rfl
    rw [hrun, whisper_success_step]
    obtain ⟨h1, h2⟩ := ih
      { total_requests := s.total_requests + 1,
        successful_transcriptions := s.successful_transcriptions + 1,
        failed_transcriptions := s.failed_transcriptions,
        avg_processing_time :=
          ((s.avg_processing_time * (((s.successful_transcriptions + 1 : ℕ) : ℚ) - 1)) + pt) /
            ((s.successful_transcriptions + 1 : ℕ) : ℚ) }
    constructor
    · simp only [List.length_cons]
      simp only at h1
      omega
    · simp only at h2
      have hn : ((s.successful_transcriptions : ℚ) + 1) ≠ 0 := by positivity
      push_cast [List.length_cons, List.sum_cons] at h2 ⊢
      rw [div_mul_cancel₀ _ hn] at h2
      linear_combination h2

/-- C2: starting from the initial statistics, after N successful transcriptions
with recorded elapsed times t_1..t_N the stored `avg_processing_time` equals
the arithmetic mean (t_1 + ... + t_N) / N, and `successful_transcriptions`
equals N (in particular the first success divides by 1, not 0). -/
theorem running_average_is_arithmetic_mean (r : TranscriptionResult) (t : ℕ)
    (times : List ℚ) (h : times ≠ []) :
    (run_whisper_successes r t initial_processing_stats times).successful_transcriptions =
      times.length ∧
    (run_whisper_successes r t initial_processing_stats times).avg_processing_time =
      times.sum / (times.length : ℚ) := by
  obtain ⟨h1, h2⟩ := run_whisper_invariant r t times initial_processing_stats
  simp only [initial_processing_stats] at h1 h2
  simp only [Nat.cast_ofNat, Nat.cast_zero, zero_add, zero_mul, Nat.zero_add] at h1 h2
  refine ⟨h1, ?_⟩
  have hlen : ((times.length : ℚ)) ≠ 0 := by
    exact_mod_cast (List.length_pos.mpr h).ne'
  rw [eq_div_iff hlen]
  simpa using h2

/-- Witness for C2 at the concrete run [1, 2, 5] (mean 8/3). -/
theorem running_average_is_arithmetic_mean_witness :
    ([1, 2, 5] : List ℚ) ≠ [] ∧
    ((run_whisper_successes ⟨"x", 1, [], [], 0, 0⟩ 0 initial_processing_stats
        [1, 2, 5]).successful_transcriptions = ([1, 2, 5] : List ℚ).length ∧
      (run_whisper_successes ⟨"x", 1, [], [], 0, 0⟩ 0 initial_processing_stats
        [1, 2, 5]).avg_processing_time =
        ([1, 2, 5] : List ℚ).sum / (([1, 2, 5] : List ℚ).length : ℚ)) :=
  ⟨by simp,
   running_average_is_arithmetic_mean ⟨"x", 1, [], [], 0, 0⟩ 0 [1, 2, 5] (by simp)⟩

/-- C3 counterexample: a buffer holding a single sample — fewer than the
32000 samples of the default window — on which `get_audio_chunk` does NOT
yield `none`; the code only rejects the empty buffer. -/
theorem short_buffer_not_rejected_cex :
    ([(5:ℤ)] : List ℤ).length < required_samples default_audio_config ∧
    get_audio_chunk default_audio_config [(5:ℤ)] ≠ none := by
  refine ⟨?_, ?_⟩
  · rw [required_samples_default]
    decide
  · simp [get_audio_chunk]

/-- C3 (amended): `get_audio_chunk` yields `none` exactly on the empty buffer
(without error); for a nonempty buffer it returns a chunk even when fewer than
one window of samples is buffered. No transcription is attempted on short
input only because the pipeline consults `add_audio_data`, whose readiness
flag is true exactly when a full window has accumulated. -/
theorem take_window_none_iff_empty (c : AudioConfig) (buf samples : List ℤ) :
    (get_audio_chunk c buf = none ↔ buf = []) ∧
    ((add_audio_data c buf samples).2 = true ↔
      required_samples c ≤ (buf ++ samples).length) := by
  constructor
  · unfold get_audio_chunk
    rcases buf with _ | ⟨x, rest⟩
    · simp
    · simp
  · unfold add_audio_data
    simp

/-- C4: when at least one window of samples is buffered, `get_audio_chunk`
extracts exactly the first `required_samples` samples as the window; the
retained buffer starts with exactly `required_samples / 4` samples (the 25%
overlap) that coincide with the tail of the extracted window, and the window
followed by the rest of the retained buffer reassembles the original buffer
(no duplication, no loss beyond the configured overlap). -/
theorem window_overlap_carried (c : AudioConfig) (buf : List ℤ)
    (hpos : 0 < required_samples c) (hlen : required_samples c ≤ buf.length) :
    ∃ chunk rest,
      get_audio_chunk c buf = some (chunk, rest) ∧
      chunk = buf.take (required_samples c) ∧
      rest.take (required_samples c / 4) =
        chunk.drop (required_samples c - required_samples c / 4) ∧
      chunk ++ rest.drop (required_samples c / 4) = buf := by
  have hne : ¬ buf.length = 0 := by omega
  refine ⟨buf.take (required_samples c),
    buf.drop (required_samples c - required_samples c / 4), ?_, rfl, ?_, ?_⟩
  · unfold get_audio_chunk
    rw [if_neg hne]
  · rw [List.drop_take]
    congr 1
    omega
  · rw [List.drop_drop]
    have harg : required_samples c - required_samples c / 4 +
        required_samples c / 4 = required_samples c := by omega
    rw [harg, List.take_append_drop]

/-- Witness for C4 on a 4-sample window and the 6-sample buffer [1,2,3,4,5,6]. -/
theorem window_overlap_carried_witness :
    0 < required_samples test_audio_config ∧
    required_samples test_audio_config ≤ ([1, 2, 3, 4, 5, 6] : List ℤ).length ∧
    (∃ chunk rest,
      get_audio_chunk test_audio_config [1, 2, 3, 4, 5, 6] = some (chunk, rest) ∧
      chunk = ([1, 2, 3, 4, 5, 6] : List ℤ).take (required_samples test_audio_config) ∧
      rest.take (required_samples test_audio_config / 4) =
        chunk.drop (required_samples test_audio_config -
          required_samples test_audio_config / 4) ∧
      chunk ++ rest.drop (required_samples test_audio_config / 4) =
        [1, 2, 3, 4, 5, 6]) :=
  ⟨by rw [required_samples_test]; decide,
   by rw [required_samples_test]; decide,
   window_overlap_carried test_audio_config [1, 2, 3, 4, 5, 6]
     (by rw [required_samples_test]; decide)
     (by rw [required_samples_test]; decide)⟩

/-- C5 counterexample: a ping control message arriving at wall-clock time 5 on
a session whose `last_activity` is 0 leaves `last_activity` at 0 — control
messages do not update the activity timestamp, contradicting the claim that
every inbound message does. -/
theorem control_message_keeps_activity_cex :
    (inbound_info_update 5 (InboundMessage.text ControlMessage.ping)
        { tab_id := none, connected_at := 0, audio_packets_received := 0,
          transcriptions_sent := 0, last_activity := 0,
          audio_format := none }).last_activity ≠ 5 := by
  decide

/-- C5 (amended): binary audio messages update the session's `last_activity`
to the current time (via `update_audio_packet_count`); every control message —
connection-info update, disconnect, ping, get_stats, unrecognized — leaves
`last_activity` unchanged. -/
theorem inbound_activity_amended (now : ℚ) (info : ConnectionInfo) :
    (∀ sent, (inbound_info_update now (InboundMessage.bytes sent) info).last_activity =
      now) ∧
    (∀ message, (inbound_info_update now (InboundMessage.text message) info).last_activity =
      info.last_activity) := by
  constructor
  · intro sent
    cases sent <;> rfl
  · intro message
    cases message <;> rfl

/-- C6: the chain tries Whisper, then speech_recognition, then the mock, in
that fixed order; when an earlier engine succeeds its result is returned and
no later engine is invoked (the invocation trace stops at it); when an
earlier engine fails or is unavailable the chain proceeds to the next engine
rather than aborting, down to the mock. -/
theorem chain_priority_order (stats : ASRStats) (elapsed : ℚ) (t : ℕ)
    (r s : TranscriptionResult) (secondary : Option (Option TranscriptionResult)) :
    ((transcribe_audio ⟨some (some r), secondary⟩ stats elapsed t).1 =
        some { r with processing_time := elapsed } ∧
      (transcribe_audio ⟨some (some r), secondary⟩ stats elapsed t).2.2 =
        [EngineTag.whisper]) ∧
    ((transcribe_audio ⟨some none, some (some s)⟩ stats elapsed t).1 =
        some { s with processing_time := elapsed } ∧
      (transcribe_audio ⟨some none, some (some s)⟩ stats elapsed t).2.2 =
        [EngineTag.whisper, EngineTag.speech_recognition]) ∧
    ((transcribe_audio ⟨none, some (some s)⟩ stats elapsed t).1 =
        some { s with processing_time := elapsed } ∧
      (transcribe_audio ⟨none, some (some s)⟩ stats elapsed t).2.2 =
        [EngineTag.speech_recognition]) ∧
    (∃ m, mock_transcription t = some m ∧
      (transcribe_audio ⟨some none, some none⟩ stats elapsed t).1 =
        some { m with processing_time := elapsed } ∧
      (transcribe_audio ⟨some none, some none⟩ stats elapsed t).2.2 =
        [EngineTag.whisper, EngineTag.speech_recognition, EngineTag.mock]) ∧
    (∃ m, mock_transcription t = some m ∧
      (transcribe_audio ⟨none, none⟩ stats elapsed t).1 =
        some { m with processing_time := elapsed } ∧
      (transcribe_audio ⟨none, none⟩ stats elapsed t).2.2 = [EngineTag.mock]) :=
  ⟨⟨rfl, rfl⟩, ⟨rfl, rfl⟩, ⟨rfl, rfl⟩, ⟨_, rfl, rfl, rfl⟩, ⟨_, rfl, rfl, rfl⟩⟩

/-- C7: `extract_se_terms_in` returns exactly the dictionary terms whose
lowercase form occurs as a contiguous substring of the lowercased text (each
term at most once when the dictionary keys are distinct); the hypothesis that
every key is lowercase-invariant holds for every dictionary the backend builds,
since `add_se_term` stores keys lowercased. Determinism is inherent: the
result is a function of the dictionary and the text alone. -/
theorem extract_terms_characterization (dict : List (String × String)) (text : String)
    (hlow : ∀ p ∈ dict, str_lower p.1 = p.1) :
    (∀ term, term ∈ extract_se_terms_in dict text ↔
      (term ∈ dict.map Prod.fst ∧ (str_lower term).data <:+: (str_lower text).data)) ∧
    ((dict.map Prod.fst).Nodup → (extract_se_terms_in dict text).Nodup) := by
  constructor
  · intro term
    unfold extract_se_terms_in
    rw [List.mem_filter]
    have hdata : term ∈ dict.map Prod.fst → (str_lower term).data = term.data := by
      intro hmem
      obtain ⟨p, hp, hpe⟩ := List.mem_map.mp hmem
      rw [← hpe, hlow p hp]
    constructor
    · rintro ⟨hmem, hsub⟩
      refine ⟨hmem, ?_⟩
      rw [hdata hmem]
      simpa [contains_sub] using hsub
    · rintro ⟨hmem, hsub⟩
      rw [hdata hmem] at hsub
      exact ⟨hmem, by simpa [contains_sub] using hsub⟩
  · intro hnd
    unfold extract_se_terms_in
    exact hnd.filter _

/-- Witness for C7 on the default dictionary: "microservices" is extracted
from a text containing it capitalized. -/
theorem extract_terms_characterization_witness :
    (∀ p ∈ SE_TERMS, str_lower p.1 = p.1) ∧
    ("microservices" ∈ extract_se_terms_in SE_TERMS
        "We use Microservices and REST interfaces." ↔
      ("microservices" ∈ SE_TERMS.map Prod.fst ∧
        (str_lower "microservices").data <:+:
          (str_lower "We use Microservices and REST interfaces.").data)) :=
  ⟨by decide,
   (extract_terms_characterization SE_TERMS
     "We use Microservices and REST interfaces." (by decide)).1 "microservices"⟩

/-- C8: with the default static tables and the relationship table built at
startup, the enhanced explanation for "microservices" has prerequisites
["software architecture", "api"] and category "architecture", whatever context
and user level are supplied. -/
theorem microservices_explanation_fields (context user_level : String) :
    ∃ e, generate_enhanced_explanation term_relationships "microservices"
        context user_level = ExplanationResult.enhanced e ∧
      e.learning_path.prerequisites = ["software architecture", "api"] ∧
      e.category = "architecture" := by
  refine ⟨_, rfl, rfl, rfl⟩

/-- C9: `generate_enhanced_explanation` yields identical output for any two
user levels — the `user_level` argument is accepted but reaches only
`get_next_steps`, which ignores it. The function is pure: its output depends
only on the arguments and the static tables. -/
theorem user_level_does_not_change_output (rels : List (String × TermRel))
    (term context level_a level_b : String) :
    generate_enhanced_explanation rels term context level_a =
      generate_enhanced_explanation rels term context level_b := by
  unfold generate_enhanced_explanation
  cases SE_TERMS.lookup (str_lower term) <;> rfl

/-- C10: evaluation of the code at the double-disconnect scenario. After
connecting client "a" at time 0 and letting the idle sweep remove it at time
400, the registry is empty with `current_connections = 0`; the second
`disconnect("a")` issued by the endpoint's cleanup then drives
`current_connections` to -1 while the table stays empty, because the decrement
in `disconnect` is unconditional. -/
theorem stale_disconnect_double_decrement :
    ((cm_cleanup_inactive_connections (cm_connect initial_manager "a" none 0)
        400).connection_stats.current_connections = 0) ∧
    ((cm_cleanup_inactive_connections (cm_connect initial_manager "a" none 0)
        400).active_connections = []) ∧
    ((cm_disconnect (cm_cleanup_inactive_connections
        (cm_connect initial_manager "a" none 0) 400)
        "a").connection_stats.current_connections = -1) ∧
    ((cm_disconnect (cm_cleanup_inactive_connections
        (cm_connect initial_manager "a" none 0) 400)
        "a").active_connections = []) := by
  have hcond : decide ((300:ℚ) < 400 - 0) = true := by norm_num
  refine ⟨?_, ?_, ?_, ?_⟩ <;>
    norm_num [cm_cleanup_inactive_connections, cm_connect, cm_disconnect,
      initial_manager, dict_set, hcond]
